import Mathlib

/-!
Verification development for the ContextWatch repository: a shallow
embedding of the three metric trackers (context, latency, memory) and of
the stepwise generation loop, with theorems settling the specification
claims about them.

Conventions of the embedding:
* Python integers are `ℤ` (token counts that are always non-negative in
  the callers are still carried as `ℤ`, matching the dynamic types);
  RSS byte counts are `ℕ` (psutil reports non-negative integers).
* Python floats are `ℚ`: the trackers only add, subtract, multiply,
  divide and round, so exact rational arithmetic mirrors the formulas.
* `round(x, k)` is modelled by `roundTo k` below via Mathlib `round`
  (half rounds up; Python uses half-to-even, which differs only on exact
  ties at the k-th decimal, and no claim in scope depends on a tie).
* Side effects are made explicit: the stderr warning of the context
  tracker becomes a returned `warningEmitted` flag, and the RSS sampling
  of the memory tracker becomes an explicit argument.
* Stateful objects are explicit state passing: each `record_step`
  returns the snapshot together with the successor state.
-/

/-- Model of Python `round(q, places)`: round to `places` decimal digits. -/
def roundTo (places : Nat) (q : ℚ) : ℚ :=
  ((round (q * (10 : ℚ) ^ places) : ℤ) : ℚ) / (10 : ℚ) ^ places

/-- Rounding to 6 decimal places, as used for `context_used_pct`. -/
def round6 (q : ℚ) : ℚ := roundTo 6 q

/-- Rounding to 2 decimal places, as used for the MB fields. -/
def round2 (q : ℚ) : ℚ := roundTo 2 q

/-- Rounding to 4 decimal places, as used for `avg_growth_per_token_mb`. -/
def round4 (q : ℚ) : ℚ := roundTo 4 q

/-!
Context tracker (src/contextwatch/monitor/context_tracker.py).
-/

/-- Embeds `ContextSnapshot` from context_tracker.py. -/
structure ContextSnapshot where
  step : ℤ
  total_tokens : ℤ
  max_context : ℤ
  context_used_pct : ℚ
  remaining_tokens : ℤ
  deriving Repr, DecidableEq

/-- Embeds `ContextSummary` from context_tracker.py. -/
structure ContextSummary where
  max_context : ℤ
  final_total_tokens : ℤ
  context_used_pct : ℚ
  remaining_tokens : ℤ
  per_step_snapshots : List ContextSnapshot
  warning_issued : Bool
  deriving Repr, DecidableEq

/-- The three attributes of `model.config` that `_get_max_context` probes,
each either present (with an integer value) or absent (`None`). -/
structure ModelConfig where
  max_position_embeddings : Option ℤ
  n_positions : Option ℤ
  n_ctx : Option ℤ
  deriving Repr, DecidableEq

/-- The failure raised by `_get_max_context` when no attribute is found
(a Python `ValueError`; the specification taxonomy calls it
`ConfigurationError`). -/
inductive ConfigurationError where
  | cannotDetermineMaxContext
  deriving Repr, DecidableEq

/-- Embeds `ContextTracker._get_max_context`: probe the three config
attributes in order and return the first value present, else fail. -/
def ContextTracker.getMaxContext (config : ModelConfig) : Except ConfigurationError ℤ :=
  match config.max_position_embeddings with
  | some v => .ok v
  | none =>
    match config.n_positions with
    | some v => .ok v
    | none =>
      match config.n_ctx with
      | some v => .ok v
      | none => .error .cannotDetermineMaxContext

/-- The mutable fields of a `ContextTracker` instance. -/
structure ContextState where
  max_context : ℤ
  warn_threshold : ℚ
  snapshots : List ContextSnapshot
  warning_issued : Bool
  deriving Repr, DecidableEq

/-- Embeds `ContextTracker.__init__`: runs `_get_max_context` (so the
construction fails iff that fails) and starts with no snapshots and the
warning flag cleared. -/
def ContextTracker.init (model : ModelConfig) (warn_threshold : ℚ) :
    Except ConfigurationError ContextState :=
  (ContextTracker.getMaxContext model).map fun m =>
    { max_context := m, warn_threshold := warn_threshold,
      snapshots := [], warning_issued := false }

/-- The `used_pct` expression of `record_step`:
`total_tokens / max_context if max_context > 0 else 0.0`. -/
def ContextTracker.usedPct (max_context total_tokens : ℤ) : ℚ :=
  if 0 < max_context then (total_tokens : ℚ) / (max_context : ℚ) else 0

/-- Result of one `ContextTracker.record_step` call: the returned
snapshot, whether the one-time warning was printed during this call, and
the successor tracker state. -/
structure ContextRecordOutcome where
  snapshot : ContextSnapshot
  warningEmitted : Bool
  state : ContextState
  deriving Repr, DecidableEq

/-- Embeds `ContextTracker.record_step`. The stderr print is modelled by
the `warningEmitted` flag; it fires iff the flag was not already set and
the unrounded usage is at least the threshold, and then the instance
flag is set. -/
def ContextTracker.record_step (s : ContextState) (step total_tokens : ℤ) :
    ContextRecordOutcome :=
  let used_pct := ContextTracker.usedPct s.max_context total_tokens
  let remaining := max (s.max_context - total_tokens) 0
  let snap : ContextSnapshot :=
    { step := step, total_tokens := total_tokens, max_context := s.max_context,
      context_used_pct := round6 used_pct, remaining_tokens := remaining }
  let emit := !s.warning_issued && decide (s.warn_threshold ≤ used_pct)
  let next : ContextState :=
    { max_context := s.max_context, warn_threshold := s.warn_threshold,
      snapshots := s.snapshots ++ [snap],
      warning_issued := s.warning_issued || emit }
  { snapshot := snap, warningEmitted := emit, state := next }

/-- Embeds `ContextTracker.is_context_full`. -/
def ContextTracker.is_context_full (s : ContextState) (total_tokens : ℤ) : Bool :=
  decide (s.max_context ≤ total_tokens)

/-- Embeds `ContextTracker.summarize`: mirror the last snapshot when one
exists, else the zero-usage summary with `remaining_tokens = max_context`. -/
def ContextTracker.summarize (s : ContextState) : ContextSummary :=
  match s.snapshots.getLast? with
  | some last =>
    { max_context := s.max_context, final_total_tokens := last.total_tokens,
      context_used_pct := last.context_used_pct,
      remaining_tokens := last.remaining_tokens,
      per_step_snapshots := s.snapshots, warning_issued := s.warning_issued }
  | none =>
    { max_context := s.max_context, final_total_tokens := 0,
      context_used_pct := 0, remaining_tokens := s.max_context,
      per_step_snapshots := [], warning_issued := s.warning_issued }

/-- Folds a list of `(step, total_tokens)` calls through
`ContextTracker.record_step`, returning the final state and the list of
per-call warning-emission flags. -/
def ContextTracker.runSteps (s : ContextState) :
    List (ℤ × ℤ) → ContextState × List Bool
  | [] => (s, [])
  | (st, tt) :: rest =>
    let out := ContextTracker.record_step s st tt
    let next := ContextTracker.runSteps out.state rest
    (next.1, out.warningEmitted :: next.2)

/-!
Latency tracker (src/contextwatch/monitor/latency_tracker.py).
-/

/-- Embeds `LatencySnapshot` from latency_tracker.py; `latency_ms` is
optional in the dataclass, though `record_step` always fills it. -/
structure LatencySnapshot where
  step : ℤ
  timestamp : ℚ
  latency_ms : Option ℚ
  deriving Repr, DecidableEq

/-- Embeds `LatencySummary` from latency_tracker.py. -/
structure LatencySummary where
  ttft_ms : Option ℚ
  current_token_latency_ms : Option ℚ
  rolling_avg_ms : Option ℚ
  trend_ms_per_100_tokens : Option ℚ
  per_step_snapshots : List LatencySnapshot
  deriving Repr, DecidableEq

/-- The mutable fields of a `LatencyTracker` instance. -/
structure LatencyState where
  rolling_window : ℕ
  snapshots : List LatencySnapshot
  start_time : Option ℚ
  ttft_ms : Option ℚ
  deriving Repr, DecidableEq

/-- Embeds `LatencyTracker.__init__` (default window in the source: 20). -/
def LatencyTracker.init (rolling_window : ℕ) : LatencyState :=
  { rolling_window := rolling_window, snapshots := [],
    start_time := none, ttft_ms := none }

/-- Embeds `LatencyTracker.start`: record the baseline timestamp. -/
def LatencyTracker.start (s : LatencyState) (now : ℚ) : LatencyState :=
  { s with start_time := some now }

/-- Embeds `LatencyTracker.record_step`. -/
def LatencyTracker.record_step (s : LatencyState) (step : ℤ)
    (step_start_time step_end_time : ℚ) : LatencySnapshot × LatencyState :=
  let latency_ms := (step_end_time - step_start_time) * 1000
  let ttft :=
    if step = 0 then
      match s.start_time with
      | some b => some ((step_end_time - b) * 1000)
      | none => s.ttft_ms
    else s.ttft_ms
  let snap : LatencySnapshot :=
    { step := step, timestamp := step_end_time, latency_ms := some latency_ms }
  (snap,
   { rolling_window := s.rolling_window, snapshots := s.snapshots ++ [snap],
     start_time := s.start_time, ttft_ms := ttft })

/-- Python list slicing `l[-w:]` for a natural `w`: the whole list when
`w = 0` (since `-0 = 0`), otherwise the last `min w l.length` elements. -/
def pySliceLast {α : Type} (l : List α) (w : ℕ) : List α :=
  if w = 0 then l else l.drop (l.length - w)

/-- Embeds `LatencyTracker._compute_rolling_average`. -/
def LatencyTracker.computeRollingAverage (s : LatencyState) : Option ℚ :=
  if s.snapshots = [] then none
  else
    let window := pySliceLast s.snapshots s.rolling_window
    let latencies := window.filterMap (fun sn => sn.latency_ms)
    if latencies = [] then none
    else some (latencies.sum / (latencies.length : ℚ))

/-- Embeds `LatencyTracker._compute_trend_slope`: ordinary least squares
over the `(step, latency)` pairs whose latency is present, guarded
against fewer than two points and a zero denominator. -/
def LatencyTracker.computeTrendSlope (s : LatencyState) : Option ℚ :=
  if s.snapshots.length < 2 then none
  else
    let pairs := s.snapshots.filterMap fun sn =>
      sn.latency_ms.map fun y => ((sn.step : ℚ), y)
    if pairs.length < 2 then none
    else
      let n : ℚ := (pairs.length : ℚ)
      let sum_x := (pairs.map Prod.fst).sum
      let sum_y := (pairs.map Prod.snd).sum
      let sum_xy := (pairs.map fun p => p.1 * p.2).sum
      let sum_x2 := (pairs.map fun p => p.1 * p.1).sum
      let denominator := n * sum_x2 - sum_x * sum_x
      if denominator = 0 then none
      else some ((n * sum_xy - sum_x * sum_y) / denominator * 100)

/-- Embeds `LatencyTracker.summarize`. -/
def LatencyTracker.summarize (s : LatencyState) : LatencySummary :=
  match s.snapshots.getLast? with
  | none =>
    { ttft_ms := none, current_token_latency_ms := none,
      rolling_avg_ms := none, trend_ms_per_100_tokens := none,
      per_step_snapshots := [] }
  | some last =>
    { ttft_ms := s.ttft_ms,
      current_token_latency_ms := last.latency_ms,
      rolling_avg_ms := LatencyTracker.computeRollingAverage s,
      trend_ms_per_100_tokens := LatencyTracker.computeTrendSlope s,
      per_step_snapshots := s.snapshots }

/-!
Memory tracker (src/contextwatch/monitor/memory_tracker.py).
-/

/-- The `_BYTES_PER_MB` constant (1 MiB). -/
def BYTES_PER_MB : ℕ := 1024 * 1024

/-- Embeds `MemorySnapshot` from memory_tracker.py. -/
structure MemorySnapshot where
  step : ℤ
  rss_bytes : ℕ
  rss_mb : ℚ
  delta_from_start_mb : ℚ
  deriving Repr, DecidableEq

/-- Embeds `MemorySummary` from memory_tracker.py. -/
structure MemorySummary where
  initial_memory_mb : ℚ
  current_memory_mb : ℚ
  peak_memory_mb : ℚ
  memory_growth_total_mb : ℚ
  avg_growth_per_token_mb : ℚ
  growth_per_100_tokens_mb : ℚ
  per_step_snapshots : List MemorySnapshot
  deriving Repr, DecidableEq

/-- The mutable fields of a `MemoryTracker` instance (`__init__` leaves
the baseline unset and the peak at 0). -/
structure MemoryState where
  initial_rss : Option ℕ
  peak_rss : ℕ
  snapshots : List MemorySnapshot
  deriving Repr, DecidableEq

/-- Embeds `MemoryTracker.__init__`. -/
def MemoryTracker.init : MemoryState :=
  { initial_rss := none, peak_rss := 0, snapshots := [] }

/-- Python truthiness of `a or b` for an optional non-negative integer
`a`: yields `b` when `a` is `None` or `0` (both falsy), else the value
of `a`. -/
def pyOrNat : Option ℕ → ℕ → ℕ
  | none, b => b
  | some 0, b => b
  | some (v + 1), _ => v + 1

/-- Embeds `MemoryTracker.start`: sample RSS (passed explicitly here)
and store it as baseline and peak. -/
def MemoryTracker.start (s : MemoryState) (rss : ℕ) : MemoryState :=
  { initial_rss := some rss, peak_rss := rss, snapshots := s.snapshots }

/-- Embeds `MemoryTracker.record_step`; the RSS sample returned by
psutil is an explicit argument. Note the source computes the baseline as
`self._initial_rss or rss` locally and never writes `_initial_rss`. -/
def MemoryTracker.record_step (s : MemoryState) (step : ℤ) (rss : ℕ) :
    MemorySnapshot × MemoryState :=
  let peak := max s.peak_rss rss
  let initial := pyOrNat s.initial_rss rss
  let delta_bytes : ℤ := (rss : ℤ) - (initial : ℤ)
  let snap : MemorySnapshot :=
    { step := step, rss_bytes := rss,
      rss_mb := round2 ((rss : ℚ) / (BYTES_PER_MB : ℚ)),
      delta_from_start_mb := round2 ((delta_bytes : ℚ) / (BYTES_PER_MB : ℚ)) }
  (snap,
   { initial_rss := s.initial_rss, peak_rss := peak,
     snapshots := s.snapshots ++ [snap] })

/-- Embeds `MemoryTracker.summarize`; note the source reads the baseline
as `self._initial_rss or 0` here (not `or rss` as in `record_step`). -/
def MemoryTracker.summarize (s : MemoryState) : MemorySummary :=
  let initial : ℕ := pyOrNat s.initial_rss 0
  let initial_mb : ℚ := (initial : ℚ) / (BYTES_PER_MB : ℚ)
  match s.snapshots.getLast? with
  | none =>
    { initial_memory_mb := round2 initial_mb,
      current_memory_mb := round2 initial_mb,
      peak_memory_mb := round2 ((s.peak_rss : ℚ) / (BYTES_PER_MB : ℚ)),
      memory_growth_total_mb := 0, avg_growth_per_token_mb := 0,
      growth_per_100_tokens_mb := 0, per_step_snapshots := [] }
  | some last =>
    let current_mb : ℚ := (last.rss_bytes : ℚ) / (BYTES_PER_MB : ℚ)
    let peak_mb : ℚ := (s.peak_rss : ℚ) / (BYTES_PER_MB : ℚ)
    let growth_total_mb : ℚ :=
      (((last.rss_bytes : ℤ) - (initial : ℤ) : ℤ) : ℚ) / (BYTES_PER_MB : ℚ)
    let n_tokens := s.snapshots.length
    let avg_growth : ℚ :=
      if 0 < n_tokens then growth_total_mb / (n_tokens : ℚ) else 0
    let growth_per_100 : ℚ := avg_growth * 100
    { initial_memory_mb := round2 initial_mb,
      current_memory_mb := round2 current_mb,
      peak_memory_mb := round2 peak_mb,
      memory_growth_total_mb := round2 growth_total_mb,
      avg_growth_per_token_mb := round4 avg_growth,
      growth_per_100_tokens_mb := round2 growth_per_100,
      per_step_snapshots := s.snapshots }

/-!
Generation loop. The file src/contextwatch/inference_loop.py in the
repository holds the Phase 1 loop only (its tracker hooks are TODO
markers), while its in-repo callers (src/contextwatch/cli.py and
src/examples/validate.py) pass `warn_threshold` and read the
`context_summary` and `latency_summary` fields of the result, so the
tracker-integrated Phase 2 loop is repository code missing from src.
The definitions below model that loop from the specification, section
4.4, reusing the Phase 1 skeleton of run_inference (greedy argmax
selection, EOS early stop before appending).
-/

/-- Modelled from the spec: the Phase 2 result object, holding the token
counts and generated text of the Phase 1 `InferenceResult` plus the
three tracker summaries merged in (the fields read by cli.py and
validate.py). -/
structure InferenceResult where
  prompt_token_count : ℕ
  generated_token_count : ℕ
  total_token_count : ℕ
  generated_text : String
  context_summary : ContextSummary
  latency_summary : LatencySummary
  memory_summary : MemorySummary

/-- Modelled from the spec: the external collaborators of the loop
(section 6), made deterministic. `nextToken` folds the model forward
pass and the greedy argmax into one function of the token history;
`stepTimes` gives the perf counter pair read around step `k`;
`rssAtStep` gives the RSS sample taken at step `k`; `startTime` and
`startRss` are the readings taken by the `start()` calls before
prefill. -/
structure Collaborators where
  encode : String → List ℕ
  decode : List ℕ → String
  nextToken : List ℕ → ℕ
  eosTokenId : Option ℕ
  stepTimes : ℕ → ℚ × ℚ
  rssAtStep : ℕ → ℕ
  startTime : ℚ
  startRss : ℕ

/-- Modelled from the spec: the decoding states of the loop (section
4.4), driven by fuel = remaining budget. Each iteration selects the next
token; on EOS it stops without appending and without recording;
otherwise it appends the token and records into the context, latency and
memory trackers, in that order, with cumulative count
`prompt + generated so far`. -/
def decodeGo (env : Collaborators) (promptIds : List ℕ) :
    ℕ → ℕ → List ℕ → ContextState → LatencyState → MemoryState →
    List ℕ × ContextState × LatencyState × MemoryState
  | 0, _, gen, ctx, lat, mem => (gen, ctx, lat, mem)
  | fuel + 1, step, gen, ctx, lat, mem =>
    let tok := env.nextToken (promptIds ++ gen)
    if some tok = env.eosTokenId then (gen, ctx, lat, mem)
    else
      let gen2 := gen ++ [tok]
      let ctx2 :=
        (ContextTracker.record_step ctx (step : ℤ)
          ((promptIds.length + gen2.length : ℕ) : ℤ)).state
      let times := env.stepTimes step
      let lat2 := (LatencyTracker.record_step lat (step : ℤ) times.1 times.2).2
      let mem2 := (MemoryTracker.record_step mem (step : ℤ) (env.rssAtStep step)).2
      decodeGo env promptIds fuel (step + 1) gen2 ctx2 lat2 mem2

/-- Modelled from the spec: the loop body given an already constructed
context tracker — tokenize, call `start()` on the latency and memory
trackers, decode up to `max_tokens` steps, then assemble the result from
the token counts, the decoded text and the three tracker summaries. -/
def run_inference_core (env : Collaborators) (ctx0 : ContextState)
    (prompt : String) (max_tokens : ℕ) : InferenceResult :=
  let promptIds := env.encode prompt
  let lat0 := LatencyTracker.start (LatencyTracker.init 20) env.startTime
  let mem0 := MemoryTracker.start MemoryTracker.init env.startRss
  let res := decodeGo env promptIds max_tokens 0 [] ctx0 lat0 mem0
  let gen := res.1
  { prompt_token_count := promptIds.length,
    generated_token_count := gen.length,
    total_token_count := promptIds.length + gen.length,
    generated_text := env.decode gen,
    context_summary := ContextTracker.summarize res.2.1,
    latency_summary := LatencyTracker.summarize res.2.2.1,
    memory_summary := MemoryTracker.summarize res.2.2.2 }

/-- Modelled from the spec: the Phase 2 `run_inference`, which
constructs the context tracker from the model configuration (a
`ConfigurationError` propagates, no fallback) and otherwise runs the
loop body. -/
def run_inference (env : Collaborators) (config : ModelConfig)
    (warn_threshold : ℚ) (prompt : String) (max_tokens : ℕ) :
    Except ConfigurationError InferenceResult :=
  (ContextTracker.init config warn_threshold).map fun ctx0 =>
    run_inference_core env ctx0 prompt max_tokens

/-!
Helper lemmas.
-/

/-- Mathlib round is monotone (via the floor characterisation). -/
theorem round_le_round {x y : ℚ} (h : x ≤ y) : round x ≤ round y := by
  rw [round_eq, round_eq]
  exact Int.floor_le_floor (by linarith)

/-- roundTo is monotone. -/
theorem roundTo_mono (p : ℕ) {x y : ℚ} (h : x ≤ y) : roundTo p x ≤ roundTo p y := by
  unfold roundTo
  have hp : (0 : ℚ) < (10 : ℚ) ^ p := by positivity
  have := round_le_round (mul_le_mul_of_nonneg_right h (le_of_lt hp))
  exact div_le_div_of_nonneg_right (by exact_mod_cast this) (le_of_lt hp)

/-- roundTo fixes 0. -/
theorem roundTo_zero (p : ℕ) : roundTo p 0 = 0 := by
  unfold roundTo
  simp

/-- roundTo fixes 1. -/
theorem roundTo_one (p : ℕ) : roundTo p 1 = 1 := by
  unfold roundTo
  have : (1 : ℚ) * (10 : ℚ) ^ p = (((10 : ℤ) ^ p : ℤ) : ℚ) := by push_cast; ring
  rw [this, round_intCast]
  have hp : ((10 : ℤ) ^ p : ℚ) ≠ 0 := by positivity
  field_simp

/-- roundTo preserves non-negativity. -/
theorem roundTo_nonneg (p : ℕ) {x : ℚ} (h : 0 ≤ x) : 0 ≤ roundTo p x := by
  have := roundTo_mono p h
  rwa [roundTo_zero] at this

/-- roundTo of a value at most 1 is at most 1. -/
theorem roundTo_le_one (p : ℕ) {x : ℚ} (h : x ≤ 1) : roundTo p x ≤ 1 := by
  have := roundTo_mono p h
  rwa [roundTo_one] at this

/-- The usage fraction is non-negative for non-negative token counts. -/
theorem usedPct_nonneg {m t : ℤ} (h : 0 ≤ t) : 0 ≤ ContextTracker.usedPct m t := by
  unfold ContextTracker.usedPct
  split
  · positivity
  · exact le_refl 0

/-- The usage fraction is at most 1 when the count is within the window. -/
theorem usedPct_le_one {m t : ℤ} (h : t ≤ m) : ContextTracker.usedPct m t ≤ 1 := by
  unfold ContextTracker.usedPct
  split
  · rename_i hm
    rw [div_le_one (by exact_mod_cast hm)]
    exact_mod_cast h
  · norm_num

/-- The context summary always lists exactly the snapshots held by the
tracker state at the time of the call. -/
theorem ctxSummarize_per_step (s : ContextState) :
    (ContextTracker.summarize s).per_step_snapshots = s.snapshots := by
  unfold ContextTracker.summarize
  cases h : s.snapshots.getLast? with
  | some last => rfl
  | none => simp [List.getLast?_eq_none_iff.mp h]

/-- The latency summary always lists exactly the snapshots held by the
tracker state at the time of the call. -/
theorem latSummarize_per_step (s : LatencyState) :
    (LatencyTracker.summarize s).per_step_snapshots = s.snapshots := by
  unfold LatencyTracker.summarize
  cases h : s.snapshots.getLast? with
  | some last => rfl
  | none => simp [List.getLast?_eq_none_iff.mp h]

/-- The memory summary always lists exactly the snapshots held by the
tracker state at the time of the call. -/
theorem memSummarize_per_step (s : MemoryState) :
    (MemoryTracker.summarize s).per_step_snapshots = s.snapshots := by
  unfold MemoryTracker.summarize
  cases h : s.snapshots.getLast? with
  | some last => rfl
  | none => simp [List.getLast?_eq_none_iff.mp h]

/-- record_step appends exactly one context snapshot. -/
theorem ctxRecord_step_snapshots (s : ContextState) (a b : ℤ) :
    (ContextTracker.record_step s a b).state.snapshots =
      s.snapshots ++ [(ContextTracker.record_step s a b).snapshot] := rfl

/-- record_step appends exactly one latency snapshot. -/
theorem latRecord_step_snapshots (s : LatencyState) (a : ℤ) (t0 t1 : ℚ) :
    (LatencyTracker.record_step s a t0 t1).2.snapshots =
      s.snapshots ++ [(LatencyTracker.record_step s a t0 t1).1] := rfl

/-- record_step appends exactly one memory snapshot. -/
theorem memRecord_step_snapshots (s : MemoryState) (a : ℤ) (r : ℕ) :
    (MemoryTracker.record_step s a r).2.snapshots =
      s.snapshots ++ [(MemoryTracker.record_step s a r).1] := rfl

/-- record_step grows the context snapshot count by one. -/
theorem ctxRecord_step_length (s : ContextState) (a b : ℤ) :
    (ContextTracker.record_step s a b).state.snapshots.length =
      s.snapshots.length + 1 := by
  rw [ctxRecord_step_snapshots]; simp

/-- record_step grows the latency snapshot count by one. -/
theorem latRecord_step_length (s : LatencyState) (a : ℤ) (t0 t1 : ℚ) :
    (LatencyTracker.record_step s a t0 t1).2.snapshots.length =
      s.snapshots.length + 1 := by
  rw [latRecord_step_snapshots]; simp

/-- record_step grows the memory snapshot count by one. -/
theorem memRecord_step_length (s : MemoryState) (a : ℤ) (r : ℕ) :
    (MemoryTracker.record_step s a r).2.snapshots.length =
      s.snapshots.length + 1 := by
  rw [memRecord_step_snapshots]; simp

/-- record_step preserves the maximum context length. -/
theorem ContextTracker.record_step_max (s : ContextState) (a b : ℤ) :
    (ContextTracker.record_step s a b).state.max_context = s.max_context := rfl

/-- runSteps preserves the maximum context length. -/
theorem ContextTracker.runSteps_max (calls : List (ℤ × ℤ)) :
    ∀ s : ContextState, (ContextTracker.runSteps s calls).1.max_context = s.max_context := by
  induction calls with
  | nil => intro s; rfl
  | cons c rest ih =>
    intro s
    exact (ih (ContextTracker.record_step s c.1 c.2).state).trans rfl

/-- runSteps preserves any state predicate preserved by record_step. -/
theorem ContextTracker.runSteps_preserves (P : ContextState → Prop)
    (calls : List (ℤ × ℤ))
    (hstep : ∀ (s : ContextState) (c : ℤ × ℤ), c ∈ calls → P s →
      P (ContextTracker.record_step s c.1 c.2).state) :
    ∀ s : ContextState, P s → P (ContextTracker.runSteps s calls).1 := by
  induction calls with
  | nil => intro s hs; exact hs
  | cons c rest ih =>
    intro s hs
    exact ih (fun s2 c2 hc2 => hstep s2 c2 (List.mem_cons_of_mem c hc2))
      (ContextTracker.record_step s c.1 c.2).state
      (hstep s c (List.mem_cons_self c rest) hs)

/-- The warning-emission flag of call `i` of a run is set iff the
warning flag was clear at the start of the run, the usage of call `i`
reaches the threshold, and no earlier call reached it. -/
theorem ContextTracker.runSteps_emit_iff (calls : List (ℤ × ℤ)) :
    ∀ (s : ContextState) (i : ℕ), i < calls.length →
      ((ContextTracker.runSteps s calls).2.getD i false = true ↔
        (s.warning_issued = false ∧
         s.warn_threshold ≤ ContextTracker.usedPct s.max_context (calls.getD i (0, 0)).2 ∧
         ∀ j < i, ContextTracker.usedPct s.max_context (calls.getD j (0, 0)).2 <
           s.warn_threshold)) := by
  induction calls with
  | nil => intro s i hi; simp at hi
  | cons c rest ih =>
    intro s i hi
    cases i with
    | zero =>
      show (ContextTracker.record_step s c.1 c.2).warningEmitted = true ↔ _
      constructor
      · intro h
        have h2 := h
        unfold ContextTracker.record_step at h2
        simp only [Bool.and_eq_true, Bool.not_eq_true', decide_eq_true_eq] at h2
        exact ⟨h2.1, h2.2, fun j hj => absurd hj (Nat.not_lt_zero j)⟩
      · intro ⟨hw, hu, _⟩
        unfold ContextTracker.record_step
        simp only [Bool.and_eq_true, Bool.not_eq_true', decide_eq_true_eq]
        exact ⟨hw, hu⟩
    | succ i2 =>
      have hi2 : i2 < rest.length := by simpa using Nat.lt_of_succ_lt_succ hi
      have hstep :
          (ContextTracker.runSteps s (c :: rest)).2.getD (i2 + 1) false =
            (ContextTracker.runSteps (ContextTracker.record_step s c.1 c.2).state
              rest).2.getD i2 false := rfl
      rw [hstep, ih (ContextTracker.record_step s c.1 c.2).state i2 hi2]
      have hmax : (ContextTracker.record_step s c.1 c.2).state.max_context =
          s.max_context := rfl
      have hthr : (ContextTracker.record_step s c.1 c.2).state.warn_threshold =
          s.warn_threshold := rfl
      have hwarn : (ContextTracker.record_step s c.1 c.2).state.warning_issued =
          (s.warning_issued ||
            (!s.warning_issued &&
              decide (s.warn_threshold ≤ ContextTracker.usedPct s.max_context c.2))) := rfl
      rw [hmax, hthr, hwarn]
      constructor
      · intro ⟨hflag, hu, hprev⟩
        simp only [Bool.or_eq_false_iff, Bool.and_eq_false_iff] at hflag
        have hw0 : s.warning_issued = false := hflag.1
        have hu0 : ¬ s.warn_threshold ≤ ContextTracker.usedPct s.max_context c.2 := by
          rcases hflag.2 with h | h
          · rw [hw0] at h; simp at h
          · simpa using of_decide_eq_false h
        refine ⟨hw0, hu, ?_⟩
        intro j hj
        cases j with
        | zero => exact lt_of_not_le hu0
        | succ j2 => exact hprev j2 (Nat.lt_of_succ_lt_succ hj)
      · intro ⟨hw0, hu, hprev⟩
        have hu0 := hprev 0 (Nat.succ_pos i2)
        refine ⟨?_, hu, fun j hj => hprev (j + 1) (Nat.succ_lt_succ hj)⟩
        rw [hw0]
        simp only [Bool.false_or, Bool.not_false, Bool.true_and]
        exact decide_eq_false (not_le_of_lt hu0)

/-- filterMap along a pointwise-defined optional function is map. -/
theorem filterMap_eq_map_of_forall_some {α β : Type} (f : α → Option β) (g : α → β) :
    ∀ l : List α, (∀ x ∈ l, f x = some (g x)) → l.filterMap f = l.map g := by
  intro l
  induction l with
  | nil => intro _; rfl
  | cons a t ih =>
    intro h
    rw [List.filterMap_cons, h a (List.mem_cons_self a t), List.map_cons,
      ih (fun x hx => h x (List.mem_cons_of_mem a hx))]

/-- A present optional value equals some of its default read. -/
theorem option_eq_some_getD {α : Type} (o : Option α) (d : α) (h : o.isSome) :
    o = some (o.getD d) := by
  cases o with
  | some v => rfl
  | none => simp at h


/-- Unfolding the decode loop at an EOS step: stop, recording nothing. -/
theorem decodeGo_eos_unfold (env : Collaborators) (promptIds : List ℕ)
    (fuel step : ℕ) (gen : List ℕ) (ctx : ContextState) (lat : LatencyState)
    (mem : MemoryState) (hc : some (env.nextToken (promptIds ++ gen)) = env.eosTokenId) :
    decodeGo env promptIds (fuel + 1) step gen ctx lat mem = (gen, ctx, lat, mem) := by
  simp only [decodeGo, hc, if_true]

/-- Unfolding the decode loop at a non-EOS step: append the token,
record one snapshot into each tracker, continue. -/
theorem decodeGo_step_unfold (env : Collaborators) (promptIds : List ℕ)
    (fuel step : ℕ) (gen : List ℕ) (ctx : ContextState) (lat : LatencyState)
    (mem : MemoryState)
    (hc : ¬ some (env.nextToken (promptIds ++ gen)) = env.eosTokenId) :
    decodeGo env promptIds (fuel + 1) step gen ctx lat mem =
      decodeGo env promptIds fuel (step + 1)
        (gen ++ [env.nextToken (promptIds ++ gen)])
        (ContextTracker.record_step ctx (step : ℤ)
          ((promptIds.length +
            (gen ++ [env.nextToken (promptIds ++ gen)]).length : ℕ) : ℤ)).state
        (LatencyTracker.record_step lat (step : ℤ) (env.stepTimes step).1
          (env.stepTimes step).2).2
        (MemoryTracker.record_step mem (step : ℤ) (env.rssAtStep step)).2 := by
  simp only [decodeGo, hc, if_false]

/-- The snapshot-count balance of the decode loop: each tracker gains
exactly one snapshot per token appended to the generated sequence. -/
theorem decodeGo_lengths (env : Collaborators) (promptIds : List ℕ) :
    ∀ (fuel step : ℕ) (gen : List ℕ) (ctx : ContextState) (lat : LatencyState)
      (mem : MemoryState),
      ((decodeGo env promptIds fuel step gen ctx lat mem).2.1.snapshots.length + gen.length =
        ctx.snapshots.length + (decodeGo env promptIds fuel step gen ctx lat mem).1.length) ∧
      ((decodeGo env promptIds fuel step gen ctx lat mem).2.2.1.snapshots.length + gen.length =
        lat.snapshots.length + (decodeGo env promptIds fuel step gen ctx lat mem).1.length) ∧
      ((decodeGo env promptIds fuel step gen ctx lat mem).2.2.2.snapshots.length + gen.length =
        mem.snapshots.length + (decodeGo env promptIds fuel step gen ctx lat mem).1.length) := by
  intro fuel
  induction fuel with
  | zero => intro step gen ctx lat mem; exact ⟨rfl, rfl, rfl⟩
  | succ f ih =>
    intro step gen ctx lat mem
    by_cases hc : some (env.nextToken (promptIds ++ gen)) = env.eosTokenId
    · rw [decodeGo_eos_unfold env promptIds f step gen ctx lat mem hc]
      exact ⟨rfl, rfl, rfl⟩
    · rw [decodeGo_step_unfold env promptIds f step gen ctx lat mem hc]
      obtain ⟨h1, h2, h3⟩ := ih (step + 1) (gen ++ [env.nextToken (promptIds ++ gen)])
        (ContextTracker.record_step ctx (step : ℤ)
          ((promptIds.length +
            (gen ++ [env.nextToken (promptIds ++ gen)]).length : ℕ) : ℤ)).state
        (LatencyTracker.record_step lat (step : ℤ) (env.stepTimes step).1
          (env.stepTimes step).2).2
        (MemoryTracker.record_step mem (step : ℤ) (env.rssAtStep step)).2
      have e1 := ctxRecord_step_length ctx (step : ℤ)
        ((promptIds.length +
          (gen ++ [env.nextToken (promptIds ++ gen)]).length : ℕ) : ℤ)
      have e2 := latRecord_step_length lat (step : ℤ)
        (env.stepTimes step).1 (env.stepTimes step).2
      have e3 := memRecord_step_length mem (step : ℤ) (env.rssAtStep step)
      have hg : (gen ++ [env.nextToken (promptIds ++ gen)]).length = gen.length + 1 := by
        simp
      exact ⟨by omega, by omega, by omega⟩

/-- When the collaborator chooses tokens as a function of the history
length (a scripted stub), and the script hits EOS after `k` further
non-EOS choices within the remaining budget, the loop returns exactly
the `k` pre-EOS tokens appended to the current output. -/
theorem decodeGo_eos_stops (env : Collaborators) (script : ℕ → ℕ) (promptIds : List ℕ)
    (hscript : ∀ h : List ℕ, env.nextToken h = script h.length) :
    ∀ (k fuel : ℕ) (gen : List ℕ) (ctx : ContextState) (lat : LatencyState)
      (mem : MemoryState) (step : ℕ), k < fuel →
      (∀ i < k, some (script (promptIds.length + gen.length + i)) ≠ env.eosTokenId) →
      some (script (promptIds.length + gen.length + k)) = env.eosTokenId →
      (decodeGo env promptIds fuel step gen ctx lat mem).1 =
        gen ++ (List.range k).map (fun i => script (promptIds.length + gen.length + i)) := by
  intro k
  induction k with
  | zero =>
    intro fuel gen ctx lat mem step hfuel _ heos
    obtain ⟨f, rfl⟩ : ∃ f, fuel = f + 1 := ⟨fuel - 1, by omega⟩
    have htok : some (env.nextToken (promptIds ++ gen)) = env.eosTokenId := by
      rw [hscript, List.length_append]
      simpa using heos
    rw [decodeGo_eos_unfold env promptIds f step gen ctx lat mem htok]
    simp
  | succ k2 ih =>
    intro fuel gen ctx lat mem step hfuel hne heos
    obtain ⟨f, rfl⟩ : ∃ f, fuel = f + 1 := ⟨fuel - 1, by omega⟩
    have htok : ¬ some (env.nextToken (promptIds ++ gen)) = env.eosTokenId := by
      rw [hscript, List.length_append]
      have := hne 0 (Nat.succ_pos k2)
      simpa using this
    rw [decodeGo_step_unfold env promptIds f step gen ctx lat mem htok]
    have hlen : (gen ++ [env.nextToken (promptIds ++ gen)]).length = gen.length + 1 := by
      simp
    have hrec := ih f (gen ++ [env.nextToken (promptIds ++ gen)])
      (ContextTracker.record_step ctx (step : ℤ)
        ((promptIds.length +
          (gen ++ [env.nextToken (promptIds ++ gen)]).length : ℕ) : ℤ)).state
      (LatencyTracker.record_step lat (step : ℤ) (env.stepTimes step).1
        (env.stepTimes step).2).2
      (MemoryTracker.record_step mem (step : ℤ) (env.rssAtStep step)).2
      (step + 1)
      (by omega)
      (by
        intro i hi
        rw [hlen]
        have := hne (i + 1) (by omega)
        have harg : promptIds.length + (gen.length + 1) + i =
            promptIds.length + gen.length + (i + 1) := by omega
        rw [harg]
        exact this)
      (by
        rw [hlen]
        have harg : promptIds.length + (gen.length + 1) + k2 =
            promptIds.length + gen.length + (k2 + 1) := by omega
        rw [harg]
        exact heos)
    rw [hrec, hlen]
    simp only [hscript, List.length_append, List.range_succ_eq_map, List.map_cons,
      List.map_map, Nat.add_zero]
    have hfun : ((fun i => script (promptIds.length + gen.length + i)) ∘ Nat.succ) =
        (fun i => script (promptIds.length + (gen.length + 1) + i)) := by
      funext i
      simp only [Function.comp_apply]
      congr 1
      omega
    rw [hfun]
    simp [List.append_assoc]

/-- A successful run is the loop body applied to the tracker state built
from the first context-length attribute found in the configuration. -/
theorem run_inference_ok (env : Collaborators) (config : ModelConfig) (wt : ℚ)
    (prompt : String) (max_tokens : ℕ) (r : InferenceResult)
    (h : run_inference env config wt prompt max_tokens = Except.ok r) :
    ∃ m, ContextTracker.getMaxContext config = Except.ok m ∧
      r = run_inference_core env
        { max_context := m, warn_threshold := wt,
          snapshots := [], warning_issued := false } prompt max_tokens := by
  unfold run_inference ContextTracker.init at h
  cases hg : ContextTracker.getMaxContext config with
  | error e =>
    rw [hg] at h
    simp [Except.map] at h
  | ok m =>
    rw [hg] at h
    simp only [Except.map, Except.ok.injEq] at h
    exact ⟨m, rfl, h.symm⟩

/-- Stated from the specification, section 4.2: the ordinary
least-squares trend over a list of `(x, y)` points, null when fewer than
two points exist or when the denominator `n·Σx² − (Σx)²` is exactly
zero, otherwise `slope * 100`. -/
def specTrend (points : List (ℚ × ℚ)) : Option ℚ :=
  if points.length < 2 then none
  else
    let n : ℚ := (points.length : ℚ)
    let sum_x := (points.map Prod.fst).sum
    let sum_y := (points.map Prod.snd).sum
    let sum_xy := (points.map fun p => p.1 * p.2).sum
    let sum_x2 := (points.map fun p => p.1 * p.1).sum
    if n * sum_x2 - sum_x * sum_x = 0 then none
    else some ((n * sum_xy - sum_x * sum_y) / (n * sum_x2 - sum_x * sum_x) * 100)

/-- Stated from the specification, section 4.2: the arithmetic mean of
the latency values over the last `min(window, count)` snapshots,
excluding snapshots without a latency value; null when the history is
empty or no snapshot in the window carries a latency value. -/
def specRollingAvg (window : ℕ) (snaps : List LatencySnapshot) : Option ℚ :=
  if snaps = [] then none
  else
    let w := snaps.drop (snaps.length - min window snaps.length)
    let ls := w.filterMap fun sn => sn.latency_ms
    if ls = [] then none else some (ls.sum / (ls.length : ℚ))

/-- C1: for every completed generation run, the loop records one entry
into each of the three trackers per emitted token (each summary lists
exactly `generated_token_count` snapshots), and the returned result
merges the three tracker summaries with the token counts
(`total_token_count` is the prompt count plus the generated count). -/
theorem C1_one_record_per_emitted_token (env : Collaborators) (config : ModelConfig)
    (warn_threshold : ℚ) (prompt : String) (max_tokens : ℕ) (r : InferenceResult)
    (h : run_inference env config warn_threshold prompt max_tokens = Except.ok r) :
    r.context_summary.per_step_snapshots.length = r.generated_token_count ∧
    r.latency_summary.per_step_snapshots.length = r.generated_token_count ∧
    r.memory_summary.per_step_snapshots.length = r.generated_token_count ∧
    r.total_token_count = r.prompt_token_count + r.generated_token_count := by
  obtain ⟨m, hm, rfl⟩ := run_inference_ok env config warn_threshold prompt max_tokens r h
  simp only [run_inference_core]
  rw [ctxSummarize_per_step, latSummarize_per_step,
    memSummarize_per_step]
  obtain ⟨h1, h2, h3⟩ := decodeGo_lengths env (env.encode prompt) max_tokens 0 []
    { max_context := m, warn_threshold := warn_threshold,
      snapshots := [], warning_issued := false }
    (LatencyTracker.start (LatencyTracker.init 20) env.startTime)
    (MemoryTracker.start MemoryTracker.init env.startRss)
  have hc0 : ({ max_context := m, warn_threshold := warn_threshold, snapshots := [], warning_issued := false } : ContextState).snapshots.length = 0 := rfl
  have hl0 : (LatencyTracker.start (LatencyTracker.init 20)
      env.startTime).snapshots.length = 0 := rfl
  have hm0 : (MemoryTracker.start MemoryTracker.init
      env.startRss).snapshots.length = 0 := rfl
  have hnil : ([] : List ℕ).length = 0 := rfl
  exact ⟨by omega, by omega, by omega, trivial⟩

/-- Concrete scripted collaborators used by the witnesses: every prompt
encodes to two token ids, the model stub chooses tokens by history
length through `script`, step `k` takes 10 ms, and RSS stays at 2 MiB. -/
def stubEnv (script : ℕ → ℕ) (eos : Option ℕ) : Collaborators :=
  { encode := fun _ => [5, 6],
    decode := fun _ => "",
    nextToken := fun h => script h.length,
    eosTokenId := eos,
    stepTimes := fun k => ((k : ℚ), (k : ℚ) + 1 / 100),
    rssAtStep := fun _ => 2 * BYTES_PER_MB,
    startTime := 0,
    startRss := BYTES_PER_MB }

/-- Collaborators for the C1 witness: constant token 7, no EOS. -/
def c1Env : Collaborators := stubEnv (fun _ => 7) none

/-- Configuration resolving the window through `n_positions`. -/
def c1Config : ModelConfig := { max_position_embeddings := none,
                                n_positions := some 100, n_ctx := none }

/-- Fresh tracker state for a window of 100 at the default threshold. -/
def c1Ctx : ContextState := { max_context := 100, warn_threshold := 3 / 4,
                              snapshots := [], warning_issued := false }

/-- Witness for C1 at a concrete two-step run. -/
theorem C1_one_record_per_emitted_token_witness :
    (run_inference_core c1Env c1Ctx "hi" 2).context_summary.per_step_snapshots.length =
      (run_inference_core c1Env c1Ctx "hi" 2).generated_token_count ∧
    (run_inference_core c1Env c1Ctx "hi" 2).latency_summary.per_step_snapshots.length =
      (run_inference_core c1Env c1Ctx "hi" 2).generated_token_count ∧
    (run_inference_core c1Env c1Ctx "hi" 2).memory_summary.per_step_snapshots.length =
      (run_inference_core c1Env c1Ctx "hi" 2).generated_token_count ∧
    (run_inference_core c1Env c1Ctx "hi" 2).total_token_count =
      (run_inference_core c1Env c1Ctx "hi" 2).prompt_token_count +
        (run_inference_core c1Env c1Ctx "hi" 2).generated_token_count :=
  C1_one_record_per_emitted_token c1Env c1Config (3 / 4) "hi" 2
    (run_inference_core c1Env c1Ctx "hi" 2) rfl

/-- C6: when the scripted collaborator hits EOS at decode step `k` of a
larger budget, the run stops there: the generated count is `k`, the
generated text decodes exactly the `k` pre-EOS tokens (EOS is not
appended), and no tracker holds a snapshot for the EOS step (each
summary lists exactly `k` snapshots). -/
theorem C6_eos_early_stop (env : Collaborators) (config : ModelConfig)
    (wt : ℚ) (prompt : String) (max_tokens k : ℕ) (script : ℕ → ℕ)
    (r : InferenceResult)
    (hscript : ∀ h : List ℕ, env.nextToken h = script h.length)
    (hk : k < max_tokens)
    (hne : ∀ i < k, some (script ((env.encode prompt).length + i)) ≠ env.eosTokenId)
    (heos : some (script ((env.encode prompt).length + k)) = env.eosTokenId)
    (h : run_inference env config wt prompt max_tokens = Except.ok r) :
    r.generated_token_count = k ∧
    r.generated_text = env.decode ((List.range k).map
      (fun i => script ((env.encode prompt).length + i))) ∧
    r.context_summary.per_step_snapshots.length = k ∧
    r.latency_summary.per_step_snapshots.length = k ∧
    r.memory_summary.per_step_snapshots.length = k := by
  obtain ⟨m, hm, rfl⟩ := run_inference_ok env config wt prompt max_tokens r h
  have hgen := decodeGo_eos_stops env script (env.encode prompt) hscript k max_tokens []
    { max_context := m, warn_threshold := wt,
      snapshots := [], warning_issued := false }
    (LatencyTracker.start (LatencyTracker.init 20) env.startTime)
    (MemoryTracker.start MemoryTracker.init env.startRss)
    0 hk (by simpa using hne) (by simpa using heos)
  obtain ⟨h1, h2, h3⟩ := decodeGo_lengths env (env.encode prompt) max_tokens 0 []
    { max_context := m, warn_threshold := wt,
      snapshots := [], warning_issued := false }
    (LatencyTracker.start (LatencyTracker.init 20) env.startTime)
    (MemoryTracker.start MemoryTracker.init env.startRss)
  have hlen : (decodeGo env (env.encode prompt) max_tokens 0 []
      { max_context := m, warn_threshold := wt,
        snapshots := [], warning_issued := false }
      (LatencyTracker.start (LatencyTracker.init 20) env.startTime)
      (MemoryTracker.start MemoryTracker.init env.startRss)).1.length = k := by
    rw [hgen]
    simp
  simp only [run_inference_core]
  rw [ctxSummarize_per_step, latSummarize_per_step,
    memSummarize_per_step]
  have hc0 : ({ max_context := m, warn_threshold := wt, snapshots := [], warning_issued := false } : ContextState).snapshots.length = 0 := rfl
  have hl0 : (LatencyTracker.start (LatencyTracker.init 20)
      env.startTime).snapshots.length = 0 := rfl
  have hm0 : (MemoryTracker.start MemoryTracker.init
      env.startRss).snapshots.length = 0 := rfl
  have hnil : ([] : List ℕ).length = 0 := rfl
  refine ⟨hlen, ?_, by omega, by omega, by omega⟩
  rw [hgen]
  simp

/-- Witness collaborators and state for C6: the script hits EOS token 99
at history length 5, which is decode step 3 after the 2 prompt tokens. -/
def c6Script : ℕ → ℕ := fun i => if i = 5 then 99 else i

/-- Collaborators for the C6 witness. -/
def c6Env : Collaborators := stubEnv c6Script (some 99)

/-- Configuration resolving the window through the first attribute. -/
def c6Config : ModelConfig := { max_position_embeddings := some 100,
                                n_positions := none, n_ctx := none }

/-- Fresh tracker state matching `c6Config`. -/
def c6Ctx : ContextState := { max_context := 100, warn_threshold := 3 / 4,
                              snapshots := [], warning_issued := false }

/-- Witness for C6: EOS on decode step 3 of a 20-token budget gives
exactly 3 generated tokens and 3 snapshots per tracker. -/
theorem C6_eos_early_stop_witness :
    (run_inference_core c6Env c6Ctx "hi" 20).generated_token_count = 3 ∧
    (run_inference_core c6Env c6Ctx "hi" 20).generated_text =
      c6Env.decode ((List.range 3).map
        (fun i => c6Script ((c6Env.encode "hi").length + i))) ∧
    (run_inference_core c6Env c6Ctx "hi" 20).context_summary.per_step_snapshots.length = 3 ∧
    (run_inference_core c6Env c6Ctx "hi" 20).latency_summary.per_step_snapshots.length = 3 ∧
    (run_inference_core c6Env c6Ctx "hi" 20).memory_summary.per_step_snapshots.length = 3 :=
  C6_eos_early_stop c6Env c6Config (3 / 4) "hi" 20 3 c6Script
    (run_inference_core c6Env c6Ctx "hi" 20)
    (fun _ => rfl) (by norm_num) (by decide) (by decide) rfl

/-- C4: tracker construction fails with the configuration error iff all
three known attributes are absent (no fallback, surfaced at
construction); when an attribute is present, construction succeeds and
`max_context` is the integer value of the first attribute found, in the
probe order of the source. -/
theorem C4_construction_configuration :
    (∀ (c : ModelConfig) (wt : ℚ),
      ContextTracker.init c wt =
          Except.error ConfigurationError.cannotDetermineMaxContext ↔
        (c.max_position_embeddings = none ∧ c.n_positions = none ∧ c.n_ctx = none)) ∧
    (∀ (c : ModelConfig) (wt : ℚ) (m : ℤ),
      ContextTracker.getMaxContext c = Except.ok m →
        ContextTracker.init c wt = Except.ok
          { max_context := m, warn_threshold := wt, snapshots := [], warning_issued := false }) ∧
    (∀ (c : ModelConfig) (v : ℤ),
      (c.max_position_embeddings = some v →
        ContextTracker.getMaxContext c = Except.ok v) ∧
      (c.max_position_embeddings = none → c.n_positions = some v →
        ContextTracker.getMaxContext c = Except.ok v) ∧
      (c.max_position_embeddings = none → c.n_positions = none → c.n_ctx = some v →
        ContextTracker.getMaxContext c = Except.ok v)) := by
  refine ⟨?_, ?_, ?_⟩
  · intro c wt
    obtain ⟨a, b, d⟩ := c
    cases a <;> cases b <;> cases d <;>
      simp [ContextTracker.init, ContextTracker.getMaxContext, Except.map]
  · intro c wt m hm
    unfold ContextTracker.init
    rw [hm]
    rfl
  · intro c v
    obtain ⟨a, b, d⟩ := c
    refine ⟨?_, ?_, ?_⟩
    · intro h
      simp only at h
      subst h
      rfl
    · intro h1 h2
      simp only at h1 h2
      subst h1; subst h2
      rfl
    · intro h1 h2 h3
      simp only at h1 h2 h3
      subst h1; subst h2; subst h3
      rfl

/-- Witness for C4: the all-absent configuration fails at construction,
and a present `n_positions` resolves the window to its value. -/
theorem C4_construction_configuration_witness :
    ContextTracker.init ⟨none, none, none⟩ (3 / 4) =
      Except.error ConfigurationError.cannotDetermineMaxContext ∧
    ContextTracker.getMaxContext ⟨none, some 1024, none⟩ = Except.ok 1024 :=
  ⟨(C4_construction_configuration.1 ⟨none, none, none⟩ (3 / 4)).mpr ⟨rfl, rfl, rfl⟩,
   (C4_construction_configuration.2.2 ⟨none, some 1024, none⟩ 1024).2.1 rfl rfl⟩

/-- C7: on a fresh tracker, the warning is emitted at call `i` exactly
when the usage of call `i` reaches the threshold (inclusively) and no
earlier call reached it — so it fires at the first crossing only and is
never emitted again afterwards. -/
theorem C7_threshold_warning_once (s : ContextState) (calls : List (ℤ × ℤ))
    (h0 : s.warning_issued = false) (i : ℕ) (hi : i < calls.length) :
    ((ContextTracker.runSteps s calls).2.getD i false = true ↔
      (s.warn_threshold ≤ ContextTracker.usedPct s.max_context (calls.getD i (0, 0)).2 ∧
       ∀ j < i, ContextTracker.usedPct s.max_context (calls.getD j (0, 0)).2 <
         s.warn_threshold)) := by
  rw [ContextTracker.runSteps_emit_iff calls s i hi]
  simp [h0]

/-- Fresh tracker with window 100 and the default 0.75 threshold. -/
def c7State : ContextState := { max_context := 100, warn_threshold := 3 / 4,
                                snapshots := [], warning_issued := false }

/-- Calls whose usages are 0.10, exactly 0.75, then 0.90. -/
def c7Calls : List (ℤ × ℤ) := [(0, 10), (1, 75), (2, 90)]

/-- Witness for C7: the warning fires at the call whose usage equals the
threshold exactly (inclusive comparison) and not at the later call that
is also above it. -/
theorem C7_threshold_warning_once_witness :
    (ContextTracker.runSteps c7State c7Calls).2.getD 1 false = true ∧
    (ContextTracker.runSteps c7State c7Calls).2.getD 2 false = false := by
  constructor
  · exact (C7_threshold_warning_once c7State c7Calls rfl 1 (by norm_num [c7Calls])).mpr
      ⟨by norm_num [ContextTracker.usedPct, c7State, c7Calls],
       by
        intro j hj
        interval_cases j
        norm_num [ContextTracker.usedPct, c7State, c7Calls]⟩
  · by_contra hne
    have htrue : (ContextTracker.runSteps c7State c7Calls).2.getD 2 false = true := by
      revert hne
      cases (ContextTracker.runSteps c7State c7Calls).2.getD 2 false <;> simp
    have := (C7_threshold_warning_once c7State c7Calls rfl 2 (by norm_num [c7Calls])).mp htrue
    have h1 := this.2 1 (by norm_num)
    revert h1
    norm_num [ContextTracker.usedPct, c7State, c7Calls]

/-- C10: each summary lists exactly the snapshot values held by the
tracker at the time of the call, and record_step replaces the internal
sequence by a longer one; in this value-semantics embedding (faithful
because each summarize in the source copies with `list(...)` and only
reads fields) a later record_step therefore cannot alter the snapshot
list inside a previously returned summary. -/
theorem C10_summary_snapshot_freshness :
    (∀ (s : ContextState) (a b : ℤ),
      (ContextTracker.summarize s).per_step_snapshots = s.snapshots ∧
      (ContextTracker.record_step s a b).state.snapshots =
        s.snapshots ++ [(ContextTracker.record_step s a b).snapshot]) ∧
    (∀ (s : LatencyState) (a : ℤ) (t0 t1 : ℚ),
      (LatencyTracker.summarize s).per_step_snapshots = s.snapshots ∧
      (LatencyTracker.record_step s a t0 t1).2.snapshots =
        s.snapshots ++ [(LatencyTracker.record_step s a t0 t1).1]) ∧
    (∀ (s : MemoryState) (a : ℤ) (r : ℕ),
      (MemoryTracker.summarize s).per_step_snapshots = s.snapshots ∧
      (MemoryTracker.record_step s a r).2.snapshots =
        s.snapshots ++ [(MemoryTracker.record_step s a r).1]) :=
  ⟨fun s a b =>
    ⟨ctxSummarize_per_step s, ctxRecord_step_snapshots s a b⟩,
   fun s a t0 t1 =>
    ⟨latSummarize_per_step s, latRecord_step_snapshots s a t0 t1⟩,
   fun s a r =>
    ⟨memSummarize_per_step s, memRecord_step_snapshots s a r⟩⟩

/-- The perfectly linear latency history of the specification example:
10, 20, 30, 40 ms at steps 0 to 3. -/
def c8State : LatencyState :=
  { rolling_window := 20,
    snapshots := [
      { step := 0, timestamp := 1, latency_ms := some 10 },
      { step := 1, timestamp := 2, latency_ms := some 20 },
      { step := 2, timestamp := 3, latency_ms := some 30 },
      { step := 3, timestamp := 4, latency_ms := some 40 }],
    start_time := some 0, ttft_ms := some 10 }

/-- C8: on histories where every snapshot carries a latency value (the
only histories record_step produces), the trend is exactly the
least-squares formula of the specification over all (step, latency)
pairs — null when fewer than two points exist or when the denominator is
exactly zero, never a division fault (the function is total); the linear
10, 20, 30, 40 ms example at steps 0 to 3 yields exactly 1000. -/
theorem C8_trend_formula :
    (∀ s : LatencyState, (∀ sn ∈ s.snapshots, sn.latency_ms.isSome) →
      LatencyTracker.computeTrendSlope s =
        specTrend (s.snapshots.map fun sn => ((sn.step : ℚ), sn.latency_ms.getD 0))) ∧
    LatencyTracker.computeTrendSlope c8State = some 1000 := by
  constructor
  · intro s hall
    have hpairs : s.snapshots.filterMap
        (fun sn => sn.latency_ms.map fun y => ((sn.step : ℚ), y)) =
        s.snapshots.map fun sn => ((sn.step : ℚ), sn.latency_ms.getD 0) := by
      apply filterMap_eq_map_of_forall_some
      intro x hx
      rw [option_eq_some_getD x.latency_ms 0 (hall x hx)]
      rfl
    simp only [LatencyTracker.computeTrendSlope, specTrend]
    rw [hpairs]
    simp only [List.length_map]
    by_cases hl : s.snapshots.length < 2 <;> simp [hl]
  · norm_num [c8State, LatencyTracker.computeTrendSlope, List.filterMap_cons,
      List.filterMap_nil, Option.map_some]

/-- Witness for C8 at the linear example history. -/
theorem C8_trend_formula_witness :
    LatencyTracker.computeTrendSlope c8State =
      specTrend (c8State.snapshots.map fun sn => ((sn.step : ℚ), sn.latency_ms.getD 0)) :=
  C8_trend_formula.1 c8State (by decide)

/-- C9: for a window of at least 1 (the source constructs the tracker
with 20), the rolling average is the specification value — the mean over
the last `min(window, count)` snapshots excluding absent latencies; it
is null exactly when the history is empty or no snapshot in the window
carries a latency; and once at least `window` steps were recorded with
latencies present, it is the mean of exactly the last `window`
latencies. -/
theorem C9_rolling_average :
    (∀ s : LatencyState, 1 ≤ s.rolling_window →
      LatencyTracker.computeRollingAverage s =
        specRollingAvg s.rolling_window s.snapshots) ∧
    (∀ s : LatencyState, 1 ≤ s.rolling_window →
      (LatencyTracker.computeRollingAverage s = none ↔
        (s.snapshots = [] ∨
          (pySliceLast s.snapshots s.rolling_window).filterMap
            (fun sn => sn.latency_ms) = []))) ∧
    (∀ s : LatencyState, 1 ≤ s.rolling_window →
      s.rolling_window ≤ s.snapshots.length →
      (∀ sn ∈ s.snapshots, sn.latency_ms.isSome) →
      LatencyTracker.computeRollingAverage s =
        some ((((s.snapshots.drop (s.snapshots.length - s.rolling_window)).map
          (fun sn => sn.latency_ms.getD 0)).sum) / (s.rolling_window : ℚ))) := by
  refine ⟨?_, ?_, ?_⟩
  · intro s hw
    have hslice : pySliceLast s.snapshots s.rolling_window =
        s.snapshots.drop (s.snapshots.length - min s.rolling_window s.snapshots.length) := by
      unfold pySliceLast
      rw [if_neg (by omega)]
      congr 1
      omega
    simp only [LatencyTracker.computeRollingAverage, specRollingAvg]
    rw [hslice]
  · intro s hw
    simp only [LatencyTracker.computeRollingAverage]
    by_cases h0 : s.snapshots = []
    · simp [h0, pySliceLast]
    · by_cases h1 : (pySliceLast s.snapshots s.rolling_window).filterMap
          (fun sn => sn.latency_ms) = []
      · simp [h0, h1]
      · simp [h0, h1]
  · intro s hw hlen hall
    have hslice : pySliceLast s.snapshots s.rolling_window =
        s.snapshots.drop (s.snapshots.length - s.rolling_window) := by
      unfold pySliceLast
      rw [if_neg (by omega)]
    have hmap : (s.snapshots.drop (s.snapshots.length - s.rolling_window)).filterMap
        (fun sn => sn.latency_ms) =
        (s.snapshots.drop (s.snapshots.length - s.rolling_window)).map
          (fun sn => sn.latency_ms.getD 0) := by
      apply filterMap_eq_map_of_forall_some
      intro x hx
      exact option_eq_some_getD x.latency_ms 0 (hall x (List.drop_subset _ _ hx))
    have hdroplen : (s.snapshots.drop (s.snapshots.length - s.rolling_window)).length =
        s.rolling_window := by
      rw [List.length_drop]
      omega
    have hne : s.snapshots ≠ [] := by
      intro h0
      rw [h0] at hlen
      simp at hlen
      omega
    have hmapne : (s.snapshots.drop (s.snapshots.length - s.rolling_window)).map
        (fun sn => sn.latency_ms.getD 0) ≠ [] := by
      intro hmm
      have := congrArg List.length hmm
      rw [List.length_map, hdroplen] at this
      simp at this
      omega
    simp only [LatencyTracker.computeRollingAverage, hslice, hmap]
    rw [if_neg hne, if_neg hmapne, List.length_map, hdroplen]

/-- A three-step history with latencies 10, 20, 30 ms and window 2. -/
def c9State : LatencyState :=
  { rolling_window := 2,
    snapshots := [
      { step := 0, timestamp := 1, latency_ms := some 10 },
      { step := 1, timestamp := 2, latency_ms := some 20 },
      { step := 2, timestamp := 3, latency_ms := some 30 }],
    start_time := some 0, ttft_ms := some 10 }

/-- Witness for C9: with window 2 over 3 recorded steps, the rolling
average is the mean of exactly the last 2 latencies. -/
theorem C9_rolling_average_witness :
    LatencyTracker.computeRollingAverage c9State =
      some ((((c9State.snapshots.drop (c9State.snapshots.length - c9State.rolling_window)).map
        (fun sn => sn.latency_ms.getD 0)).sum) / (c9State.rolling_window : ℚ)) :=
  C9_rolling_average.2.2 c9State (by decide) (by decide) (by decide)

/-- The last element reported by getLast? is a member of the list. -/
theorem mem_of_getLast?_eq {α : Type} {l : List α} {a : α}
    (h : l.getLast? = some a) : a ∈ l := by
  have hm := List.mem_getLast?_eq_getLast (l := l) (x := a) (by simp [h])
  obtain ⟨hne, rfl⟩ := hm
  exact List.getLast_mem hne

/-- runSteps grows the snapshot sequence by one entry per call. -/
theorem ContextTracker.runSteps_length (calls : List (ℤ × ℤ)) :
    ∀ s : ContextState,
      (ContextTracker.runSteps s calls).1.snapshots.length =
        s.snapshots.length + calls.length := by
  induction calls with
  | nil => intro s; rfl
  | cons c rest ih =>
    intro s
    have := ih (ContextTracker.record_step s c.1 c.2).state
    rw [ctxRecord_step_length] at this
    show (ContextTracker.runSteps (ContextTracker.record_step s c.1 c.2).state
      rest).1.snapshots.length = _
    rw [this]
    simp
    omega

/-- Every snapshot of a run satisfies the clamped remaining-tokens
equation relative to the (invariant) window size of the run. -/
theorem ContextTracker.runSteps_remaining_inv (calls : List (ℤ × ℤ))
    (s0 : ContextState) (h0 : s0.snapshots = []) :
    ∀ snap ∈ (ContextTracker.runSteps s0 calls).1.snapshots,
      snap.remaining_tokens =
        max ((ContextTracker.runSteps s0 calls).1.max_context - snap.total_tokens) 0 := by
  have hmax := ContextTracker.runSteps_max calls s0
  rw [hmax]
  refine ContextTracker.runSteps_preserves
    (fun s => s.max_context = s0.max_context ∧
      ∀ snap ∈ s.snapshots,
        snap.remaining_tokens = max (s0.max_context - snap.total_tokens) 0)
    calls ?_ s0 ⟨rfl, by rw [h0]; intro snap hsnap; simp at hsnap⟩ |>.2
  intro s c _ hs
  refine ⟨hs.1, ?_⟩
  intro snap hsnap
  rw [ctxRecord_step_snapshots] at hsnap
  rcases List.mem_append.mp hsnap with h | h
  · exact hs.2 snap h
  · have hsingle : snap = (ContextTracker.record_step s c.1 c.2).snapshot := by
      simpa using h
    subst hsingle
    show max (s.max_context - c.2) 0 = max (s0.max_context - c.2) 0
    rw [hs.1]

/-- State for the context counterexamples: fresh tracker, window 10. -/
def c2State : ContextState := { max_context := 10, warn_threshold := 3 / 4,
                                snapshots := [], warning_issued := false }

/-- Counterexample to C2: after recording a cumulative count of 15
against a window of 10, the summary reports `remaining_tokens = 0`
(clamped by the source), not `max_context - final_total_tokens = -5`. -/
theorem C2_counterexample :
    ¬ ((ContextTracker.summarize
          (ContextTracker.record_step c2State 0 15).state).remaining_tokens =
        (ContextTracker.summarize
          (ContextTracker.record_step c2State 0 15).state).max_context -
        (ContextTracker.summarize
          (ContextTracker.record_step c2State 0 15).state).final_total_tokens) := by
  decide

/-- C2 amended: for every completed run the summary satisfies the
clamped equation `remaining_tokens = max(max_context −
final_total_tokens, 0)` once at least one step was recorded, and the
unclamped equation `remaining_tokens = max_context −
final_total_tokens` exactly as claimed whenever the final cumulative
count does not exceed the window (which includes the empty run). -/
theorem C2_remaining_tokens_amended (s0 : ContextState) (calls : List (ℤ × ℤ))
    (h0 : s0.snapshots = []) :
    ((ContextTracker.summarize (ContextTracker.runSteps s0 calls).1).final_total_tokens ≤
        (ContextTracker.summarize (ContextTracker.runSteps s0 calls).1).max_context →
      (ContextTracker.summarize (ContextTracker.runSteps s0 calls).1).remaining_tokens =
        (ContextTracker.summarize (ContextTracker.runSteps s0 calls).1).max_context -
        (ContextTracker.summarize (ContextTracker.runSteps s0 calls).1).final_total_tokens) ∧
    (calls ≠ [] →
      (ContextTracker.summarize (ContextTracker.runSteps s0 calls).1).remaining_tokens =
        max ((ContextTracker.summarize (ContextTracker.runSteps s0 calls).1).max_context -
          (ContextTracker.summarize
            (ContextTracker.runSteps s0 calls).1).final_total_tokens) 0) := by
  cases hlast : (ContextTracker.runSteps s0 calls).1.snapshots.getLast? with
  | none =>
    have hnil : (ContextTracker.runSteps s0 calls).1.snapshots = [] :=
      List.getLast?_eq_none_iff.mp hlast
    have hlen := ContextTracker.runSteps_length calls s0
    rw [hnil, h0] at hlen
    simp only [ContextTracker.summarize, hlast]
    constructor
    · intro _
      omega
    · intro hcalls
      exact absurd (List.length_eq_zero.mp (by omega)) hcalls
  | some last =>
    have hmem := mem_of_getLast?_eq hlast
    have hinv := ContextTracker.runSteps_remaining_inv calls s0 h0 last hmem
    simp only [ContextTracker.summarize, hlast]
    constructor
    · intro hle
      rw [hinv]
      omega
    · intro _
      exact hinv

/-- Witness for C2 amended: one step with cumulative count 4 against a
window of 10 gives `remaining_tokens = 6 = 10 - 4`. -/
theorem C2_remaining_tokens_amended_witness :
    (ContextTracker.summarize (ContextTracker.runSteps c2State [(0, 4)]).1).remaining_tokens =
      (ContextTracker.summarize (ContextTracker.runSteps c2State [(0, 4)]).1).max_context -
      (ContextTracker.summarize
        (ContextTracker.runSteps c2State [(0, 4)]).1).final_total_tokens :=
  (C2_remaining_tokens_amended c2State [(0, 4)] rfl).1 (by decide)

/-- Counterexample to C3: recording a cumulative count of 15 against a
window of 10 yields a snapshot with `context_used_pct = 1.5`, above 1
(the source does not clamp the usage fraction). -/
theorem C3_counterexample :
    ¬ ((ContextTracker.record_step c2State 0 15).snapshot.context_used_pct ≤ 1) := by
  have hval : (ContextTracker.record_step c2State 0 15).snapshot.context_used_pct = 3 / 2 := by
    show round6 (ContextTracker.usedPct 10 15) = 3 / 2
    rw [ContextTracker.usedPct]
    norm_num [round6, roundTo, round_eq]
  rw [hval]
  norm_num

/-- Every snapshot of a run whose recorded counts stay within `[0,
max_context]` has its usage fraction within `[0, 1]`. -/
theorem ContextTracker.runSteps_pct_inv (calls : List (ℤ × ℤ))
    (s0 : ContextState) (h0 : s0.snapshots = [])
    (hcalls : ∀ c ∈ calls, 0 ≤ c.2 ∧ c.2 ≤ s0.max_context) :
    ∀ snap ∈ (ContextTracker.runSteps s0 calls).1.snapshots,
      0 ≤ snap.context_used_pct ∧ snap.context_used_pct ≤ 1 := by
  refine (ContextTracker.runSteps_preserves
    (fun s => s.max_context = s0.max_context ∧
      ∀ snap ∈ s.snapshots, 0 ≤ snap.context_used_pct ∧ snap.context_used_pct ≤ 1)
    calls ?_ s0 ⟨rfl, by rw [h0]; intro snap hsnap; simp at hsnap⟩).2
  intro s c hc hs
  refine ⟨hs.1, ?_⟩
  intro snap hsnap
  rw [ctxRecord_step_snapshots] at hsnap
  rcases List.mem_append.mp hsnap with h | h
  · exact hs.2 snap h
  · have hsingle : snap = (ContextTracker.record_step s c.1 c.2).snapshot := by
      simpa using h
    subst hsingle
    show 0 ≤ round6 (ContextTracker.usedPct s.max_context c.2) ∧
      round6 (ContextTracker.usedPct s.max_context c.2) ≤ 1
    obtain ⟨hnn, hub⟩ := hcalls c hc
    rw [← hs.1] at hub
    exact ⟨roundTo_nonneg 6 (usedPct_nonneg hnn), roundTo_le_one 6 (usedPct_le_one hub)⟩

/-- C3 amended: the usage fraction of a recorded snapshot is
non-negative for every non-negative count (including counts above the
window) and is at most 1 whenever the recorded count does not exceed
the window — two separately guarded bounds; for runs whose counts all
stay within the window, every snapshot and the final summary carry a
fraction in `[0, 1]`. A count above a positive window yields a fraction
above 1 (see the counterexample). -/
theorem C3_usage_fraction_amended (s0 : ContextState) (calls : List (ℤ × ℤ))
    (h0 : s0.snapshots = [])
    (hcalls : ∀ c ∈ calls, 0 ≤ c.2 ∧ c.2 ≤ s0.max_context) :
    (∀ (s : ContextState) (st tt : ℤ),
      (0 ≤ tt →
        0 ≤ (ContextTracker.record_step s st tt).snapshot.context_used_pct) ∧
      (tt ≤ s.max_context →
        (ContextTracker.record_step s st tt).snapshot.context_used_pct ≤ 1)) ∧
    (∀ snap ∈ (ContextTracker.runSteps s0 calls).1.snapshots,
      0 ≤ snap.context_used_pct ∧ snap.context_used_pct ≤ 1) ∧
    (0 ≤ (ContextTracker.summarize
        (ContextTracker.runSteps s0 calls).1).context_used_pct ∧
      (ContextTracker.summarize
        (ContextTracker.runSteps s0 calls).1).context_used_pct ≤ 1) := by
  refine ⟨?_, ContextTracker.runSteps_pct_inv calls s0 h0 hcalls, ?_⟩
  · intro s st tt
    constructor
    · intro hnn
      show 0 ≤ round6 (ContextTracker.usedPct s.max_context tt)
      exact roundTo_nonneg 6 (usedPct_nonneg hnn)
    · intro hub
      show round6 (ContextTracker.usedPct s.max_context tt) ≤ 1
      exact roundTo_le_one 6 (usedPct_le_one hub)
  · cases hlast : (ContextTracker.runSteps s0 calls).1.snapshots.getLast? with
    | none =>
      simp only [ContextTracker.summarize, hlast]
      norm_num
    | some last =>
      have hmem := mem_of_getLast?_eq hlast
      have hb := ContextTracker.runSteps_pct_inv calls s0 h0 hcalls last hmem
      simp only [ContextTracker.summarize, hlast]
      exact hb

/-- Witness for C3 amended at a run with counts 4 then 9 in window 10. -/
theorem C3_usage_fraction_amended_witness :
    0 ≤ (ContextTracker.summarize
        (ContextTracker.runSteps c2State [(0, 4), (1, 9)]).1).context_used_pct ∧
      (ContextTracker.summarize
        (ContextTracker.runSteps c2State [(0, 4), (1, 9)]).1).context_used_pct ≤ 1 :=
  (C3_usage_fraction_amended c2State [(0, 4), (1, 9)] rfl
    (by intro c hc; fin_cases hc <;> norm_num [c2State])).2.2

/-- State after one record_step of 2 MiB with `start()` never called. -/
def c5State : MemoryState :=
  (MemoryTracker.record_step MemoryTracker.init 0 (2 * BYTES_PER_MB)).2

/-- Counterexample to C5: with `start()` never called and a single 2 MiB
sample recorded, the summary reports `memory_growth_total_mb = 2` (the
baseline read in `summarize` is `self._initial_rss or 0`, that is 0),
not 0 as a first-sample-relative baseline would give. -/
theorem C5_counterexample :
    (MemoryTracker.summarize c5State).memory_growth_total_mb ≠ 0 := by
  have hlast : c5State.snapshots.getLast? =
      some (MemoryTracker.record_step MemoryTracker.init 0 (2 * BYTES_PER_MB)).1 := rfl
  simp only [MemoryTracker.summarize, hlast]
  norm_num [c5State, MemoryTracker.record_step, MemoryTracker.init, pyOrNat,
    BYTES_PER_MB, round2, roundTo, round_eq]

/-- C5 amended: if `start()` was never called, `record_step` still
succeeds and reports `delta_from_start_mb = 0` for the recorded snapshot
(the baseline is re-read as the current sample on every call, so this
holds for every snapshot, not only the first); the growth fields of the
summary, however, are computed against a baseline of 0, not against the
first sample: `initial_memory_mb` is 0 and `memory_growth_total_mb`
equals the full last RSS sample in MB (see the counterexample). -/
theorem C5_no_start_baseline_amended (s : MemoryState) (h : s.initial_rss = none)
    (step : ℤ) (rss : ℕ) :
    (MemoryTracker.record_step s step rss).1.delta_from_start_mb = 0 ∧
    (∀ last, s.snapshots.getLast? = some last →
      (MemoryTracker.summarize s).initial_memory_mb = 0 ∧
      (MemoryTracker.summarize s).memory_growth_total_mb =
        round2 ((last.rss_bytes : ℚ) / (BYTES_PER_MB : ℚ))) := by
  constructor
  · simp only [MemoryTracker.record_step, h, pyOrNat]
    norm_num [round2, roundTo_zero]
  · intro last hlast
    simp only [MemoryTracker.summarize, hlast, h, pyOrNat]
    norm_num [round2, roundTo_zero]

/-- Witness for C5 amended: recording another sample with no baseline
set still gives a zero delta, and the summary of the one-sample state
reports a zero initial memory. -/
theorem C5_no_start_baseline_amended_witness :
    (MemoryTracker.record_step c5State 1 (3 * BYTES_PER_MB)).1.delta_from_start_mb = 0 ∧
    (MemoryTracker.summarize c5State).initial_memory_mb = 0 :=
  ⟨(C5_no_start_baseline_amended c5State rfl 1 (3 * BYTES_PER_MB)).1,
   ((C5_no_start_baseline_amended c5State rfl 1 (3 * BYTES_PER_MB)).2
     (MemoryTracker.record_step MemoryTracker.init 0 (2 * BYTES_PER_MB)).1 rfl).1⟩
